import Mathlib

/- Shallow embedding of `storage/aptosdb/src/indexer.rs`: the table-info
   secondary-index builder of AptosDB.  Move type descriptors, annotated
   values, state keys and write operations are modelled as inductive types;
   the external collaborators (the access-path parser, the Move value
   annotator and the durable index reader) are passed in as explicit
   functions, mirroring the narrow interfaces the Rust core consumes.
   A Rust panic (from `assert_eq!` or an out-of-bounds index) and a
   returned `Err` both abort the call; they are kept apart in `IndexErr`
   so that the distinction between panicking and returning an error is
   visible in the theorems. -/

namespace Indexer

mutual

/-- Move `TypeTag` (`move_core_types::language_storage::TypeTag`),
restricted to the constructors the indexer can meet. -/
inductive TypeTag where
  | Bool : TypeTag
  | U8 : TypeTag
  | U64 : TypeTag
  | U128 : TypeTag
  | Address : TypeTag
  | Signer : TypeTag
  | Vector : TypeTag → TypeTag
  | Struct : StructTag → TypeTag

/-- Move `StructTag`: defining address, module name, type name and type
parameters.  Addresses are modelled as naturals (`AccountAddress::ONE` is 1). -/
inductive StructTag where
  | mk : Nat → String → String → List TypeTag → StructTag

end

def StructTag.address : StructTag → Nat
  | .mk a _ _ _ => a

def StructTag.moduleName : StructTag → String
  | .mk _ m _ _ => m

def StructTag.name : StructTag → String
  | .mk _ _ n _ => n

def StructTag.type_params : StructTag → List TypeTag
  | .mk _ _ _ ps => ps

/-- `aptos_types::state_store::table::TableInfo`: the index record, a pair
of key type and value type. -/
structure TableInfo where
  key_type : TypeTag
  value_type : TypeTag

/-- `move_resource_viewer::AnnotatedMoveValue`: a decoded value tree.
The struct case carries its `StructTag` and the ordered list of
(field name, field value) pairs of `AnnotatedMoveStruct`. -/
inductive AnnotatedMoveValue where
  | U8 : Nat → AnnotatedMoveValue
  | U64 : Nat → AnnotatedMoveValue
  | U128 : Nat → AnnotatedMoveValue
  | Bool : Bool → AnnotatedMoveValue
  | Address : Nat → AnnotatedMoveValue
  | Bytes : List Nat → AnnotatedMoveValue
  | Vector : TypeTag → List AnnotatedMoveValue → AnnotatedMoveValue
  | Struct : StructTag → List (String × AnnotatedMoveValue) → AnnotatedMoveValue

/-- `aptos_types::state_store::state_key::StateKey`: the three variants.
`AccessPath` keeps the account address and the raw path bytes;
`TableItem` keeps the table handle and the item key bytes. -/
inductive StateKey where
  | AccessPath : Nat → List Nat → StateKey
  | TableItem : Nat → List Nat → StateKey
  | Raw : List Nat → StateKey

/-- `aptos_types::write_set::WriteOp`: Value(bytes), Deletion, or
Delta (two payload fields, unused by the indexer). -/
inductive WriteOp where
  | Value : List Nat → WriteOp
  | Deletion : WriteOp
  | Delta : Nat → Nat → WriteOp

/-- `aptos_types::access_path::Path`: a parsed access path, either
executable code (module id) or a resource (struct tag). -/
inductive Path where
  | Code : Nat → String → Path
  | Resource : StructTag → Path

/-- The ways one `index_transactions` call aborts.  `panicAssert` is a
failed `assert_eq!`, `panicIndex` an out-of-bounds `Vec` index — Rust
panics, not returned errors.  `malformedMarker` is the `bail!`
("Table struct malformed"), `decodeError` a failure of
`annotator.view_value`, `unresolvedTable` a missing durable table-info
entry, `pathError` a failed conversion of access-path bytes into `Path`,
`storageError` a failed durable batch write. -/
inductive IndexErr where
  | panicAssert : IndexErr
  | panicIndex : IndexErr
  | malformedMarker : IndexErr
  | decodeError : IndexErr
  | unresolvedTable : IndexErr
  | pathError : IndexErr
  | storageError : IndexErr
deriving DecidableEq

/-- `schemadb::SchemaBatch` restricted to the `TableInfoSchema` column:
a staging list of (handle, TableInfo) entries, newest first. -/
abbrev Batch := List (Nat × TableInfo)

/-- `batch.put::<TableInfoSchema>(handle, info)`: stage an entry;
a later put for the same handle shadows an earlier one. -/
def Batch.put (b : Batch) (h : Nat) (info : TableInfo) : Batch :=
  (h, info) :: b

/-- Look a handle up in a staging list or in the durable store:
the newest entry wins. -/
def Batch.find : Batch → Nat → Option TableInfo
  | [], _ => none
  | (h2, info) :: rest, h => if h2 = h then some info else Batch.find rest h

/-- `AptosDB::is_table`: true iff the struct tag is
`0x1::table::Table` (address `AccountAddress::ONE`, module `table`,
name `Table`). -/
def is_table (struct_tag : StructTag) : Bool :=
  struct_tag.address == 1
    && struct_tag.moduleName == "table"
    && struct_tag.name == "Table"

mutual

/-- `AptosDB::parse_table_info`: recursively walk a decoded value tree and
stage (handle, TableInfo) entries for every table-marker struct.  The
result pairs the abort reason (if any) with the batch as mutated so far,
mirroring the `&mut SchemaBatch` parameter.  For a marker struct the
source first runs `assert_eq!(struct_tag.type_params.len(), 2)` (panic on
failure), then indexes `struct_value.value[0]` (panic when the field list
is empty), then matches: a `(name, U128 handle)` first field runs
`assert_eq!(name, "handle")` (panic on mismatch) and stages the entry;
any other first field hits `bail!("Table struct malformed")`. -/
def parse_table_info (move_value : AnnotatedMoveValue) (batch : Batch) :
    Option IndexErr × Batch :=
  match move_value with
  | .Vector _ items => parse_table_info_items items batch
  | .Struct struct_tag fields =>
      if is_table struct_tag then
        match struct_tag.type_params with
        | [kt, vt] =>
            match fields with
            | [] => (some .panicIndex, batch)
            | (name, .U128 handle) :: _ =>
                if name == "handle" then
                  (none, batch.put handle ⟨kt, vt⟩)
                else
                  (some .panicAssert, batch)
            | _ :: _ => (some .malformedMarker, batch)
        | _ => (some .panicAssert, batch)
      else
        parse_table_info_fields fields batch
  | .U8 _ => (none, batch)
  | .U64 _ => (none, batch)
  | .U128 _ => (none, batch)
  | .Bool _ => (none, batch)
  | .Address _ => (none, batch)
  | .Bytes _ => (none, batch)

/-- The `for item in items` loop of the `Vector` arm: walk each element,
stopping at the first error (`?` propagation). -/
def parse_table_info_items (items : List AnnotatedMoveValue) (batch : Batch) :
    Option IndexErr × Batch :=
  match items with
  | [] => (none, batch)
  | item :: rest =>
      match parse_table_info item batch with
      | (some e, b) => (some e, b)
      | (none, b) => parse_table_info_items rest b

/-- The `for (_identifier, field) in &struct_value.value` loop of the
non-marker struct arm: walk each field value, stopping at the first
error. -/
def parse_table_info_fields (fields : List (String × AnnotatedMoveValue))
    (batch : Batch) : Option IndexErr × Batch :=
  match fields with
  | [] => (none, batch)
  | (_, field) :: rest =>
      match parse_table_info field batch with
      | (some e, b) => (some e, b)
      | (none, b) => parse_table_info_fields rest b

end

/-- The external collaborators consumed while classifying one write:
`tryIntoPath` is `Path::try_from(&access_path.path)` (failure modelled as
`none`), `viewValue` is `annotator.view_value(type, bytes)` (decode
failure modelled as `none`).  Both are snapshot-bound externals whose
implementations live outside this core. -/
structure Externals where
  tryIntoPath : List Nat → Option Path
  viewValue : TypeTag → List Nat → Option AnnotatedMoveValue

/-- `AptosDB::parse_table_info_from_write_op`: classify one (state key,
write op) pair.  `getTableInfo` is `self.get_table_info`, the read of the
durable index store — it sees only previously committed entries, never
the in-progress `batch`.  The Rust `get_table_info` returns a `Result`
whose failure on a missing handle is implemented outside this source
slice; following the spec, a `none` lookup is surfaced here as the
`unresolvedTable` error that `?` would propagate. -/
def parse_table_info_from_write_op (ext : Externals)
    (getTableInfo : Nat → Option TableInfo)
    (state_key : StateKey) (write_op : WriteOp) (batch : Batch) :
    Option IndexErr × Batch :=
  match write_op with
  | .Value bytes =>
      match state_key with
      | .AccessPath _ pathBytes =>
          match ext.tryIntoPath pathBytes with
          | none => (some .pathError, batch)
          | some (.Code _ _) => (none, batch)
          | some (.Resource struct_tag) =>
              match ext.viewValue (.Struct struct_tag) bytes with
              | none => (some .decodeError, batch)
              | some v => parse_table_info v batch
      | .TableItem handle _ =>
          match getTableInfo handle with
          | none => (some .unresolvedTable, batch)
          | some table_info =>
              match ext.viewValue table_info.value_type bytes with
              | none => (some .decodeError, batch)
              | some v => parse_table_info v batch
      | .Raw _ => (none, batch)
  | .Deletion => (none, batch)
  | .Delta _ _ => (none, batch)

/-- One committed transaction, reduced to its write set (the only part
`index_transactions` reads). -/
structure TransactionToCommit where
  write_set : List (StateKey × WriteOp)

/-- The slice of `AptosDB` state the indexer touches: the latest committed
transaction version known to the ledger store, and the durable contents of
the `index_db` TableInfo column. -/
structure DB where
  latestVersion : Option Nat
  durable : List (Nat × TableInfo)

/-- Modelled from the spec: `AptosDB::get_table_info` (implemented outside
the source slice embedded here) is the durable index read,
`get_table_info(handle) -> TableInfo | NotFound`, reflecting only
previously committed batches, not the in-flight one. -/
def db_get_table_info (db : DB) (h : Nat) : Option TableInfo :=
  Batch.find db.durable h

/-- The version the `DbStateView` is pinned to:
`get_latest_transaction_info_option()?.map(|(v, _)| v + 1)` — one past
the latest committed version, or `none` when the ledger store reports no
prior transaction. -/
def state_view_version (latest : Option Nat) : Option Nat :=
  latest.map (fun v => v + 1)

/-- `self.index_db.write_schemas(batch)`: atomically apply the staged
entries to the durable store.  Staged entries shadow older durable ones
under `Batch.find`. -/
def write_schemas (durable : List (Nat × TableInfo)) (batch : Batch) :
    List (Nat × TableInfo) :=
  batch ++ durable

/-- The inner loop of `index_transactions` over the write set of one
transaction, propagating the first error. -/
def index_write_set (ext : Externals) (getTableInfo : Nat → Option TableInfo)
    (writes : List (StateKey × WriteOp)) (batch : Batch) :
    Option IndexErr × Batch :=
  match writes with
  | [] => (none, batch)
  | (state_key, write_op) :: rest =>
      match parse_table_info_from_write_op ext getTableInfo state_key write_op batch with
      | (some e, b) => (some e, b)
      | (none, b) => index_write_set ext getTableInfo rest b

/-- The outer loop of `index_transactions` over the transaction list. -/
def index_txns_loop (ext : Externals) (getTableInfo : Nat → Option TableInfo)
    (txns : List TransactionToCommit) (batch : Batch) :
    Option IndexErr × Batch :=
  match txns with
  | [] => (none, batch)
  | txn :: rest =>
      match index_write_set ext getTableInfo txn.write_set batch with
      | (some e, b) => (some e, b)
      | (none, b) => index_txns_loop ext getTableInfo rest b

/-- `AptosDB::index_transactions`: the entry point.  `mkExt` builds the
snapshot-bound externals (path parser and Move value annotator) for the
computed state-view version, mirroring `DbStateView`/`MoveValueAnnotator`
construction.  On any error the call returns the untouched `DB`; only on
full success is the accumulated batch applied to the durable store in one
atomic `write_schemas`. -/
def index_transactions (mkExt : Option Nat → Externals) (db : DB)
    (txns_to_commit : List TransactionToCommit) : Option IndexErr × DB :=
  match txns_to_commit with
  | [] => (none, db)
  | _ =>
      let ext := mkExt (state_view_version db.latestVersion)
      match index_txns_loop ext (db_get_table_info db) txns_to_commit [] with
      | (some e, _) => (some e, db)
      | (none, batch) => (none, { db with durable := write_schemas db.durable batch })

/- ------------------------------------------------------------------ -/
/- Helper lemmas                                                       -/
/- ------------------------------------------------------------------ -/

/-- A handle found in a staging list is still found after further entries
are prepended. -/
theorem Batch.find_append_isSome (pre b : Batch) (h : Nat)
    (hb : (Batch.find b h).isSome = true) :
    (Batch.find (pre ++ b) h).isSome = true := by
  induction pre with
  | nil => simpa using hb
  | cons x rest ih =>
      rcases x with ⟨h2, info⟩
      by_cases hh : h2 = h <;> simp [Batch.find, hh, ih]

mutual

/-- The value walker only prepends staged entries to the batch. -/
theorem parse_table_info_suffix (v : AnnotatedMoveValue) (batch : Batch) :
    ∃ pre, (parse_table_info v batch).2 = pre ++ batch := by
  cases v with
  | Vector t items => exact parse_table_info_items_suffix items batch
  | Struct tag fields =>
      by_cases ht : is_table tag
      · match hps : tag.type_params with
        | [kt, vt] =>
            match fields with
            | [] => exact ⟨[], by simp [parse_table_info, ht, hps]⟩
            | (name, .U128 handle) :: rest =>
                by_cases hn : name == "handle"
                · exact ⟨[(handle, ⟨kt, vt⟩)],
                    by simp [parse_table_info, ht, hps, hn, Batch.put]⟩
                · exact ⟨[], by simp [parse_table_info, ht, hps, hn]⟩
            | (name, .U8 x) :: rest => exact ⟨[], by simp [parse_table_info, ht, hps]⟩
            | (name, .U64 x) :: rest => exact ⟨[], by simp [parse_table_info, ht, hps]⟩
            | (name, .Bool x) :: rest => exact ⟨[], by simp [parse_table_info, ht, hps]⟩
            | (name, .Address x) :: rest => exact ⟨[], by simp [parse_table_info, ht, hps]⟩
            | (name, .Bytes x) :: rest => exact ⟨[], by simp [parse_table_info, ht, hps]⟩
            | (name, .Vector t its) :: rest =>
                exact ⟨[], by simp [parse_table_info, ht, hps]⟩
            | (name, .Struct t fs) :: rest =>
                exact ⟨[], by simp [parse_table_info, ht, hps]⟩
        | [] => exact ⟨[], by simp [parse_table_info, ht, hps]⟩
        | [x] => exact ⟨[], by simp [parse_table_info, ht, hps]⟩
        | x :: y :: z :: t => exact ⟨[], by simp [parse_table_info, ht, hps]⟩
      · have := parse_table_info_fields_suffix fields batch
        simpa [parse_table_info, ht] using this
  | U8 x => exact ⟨[], by simp [parse_table_info]⟩
  | U64 x => exact ⟨[], by simp [parse_table_info]⟩
  | U128 x => exact ⟨[], by simp [parse_table_info]⟩
  | Bool x => exact ⟨[], by simp [parse_table_info]⟩
  | Address x => exact ⟨[], by simp [parse_table_info]⟩
  | Bytes x => exact ⟨[], by simp [parse_table_info]⟩

/-- The element loop of the walker only prepends staged entries. -/
theorem parse_table_info_items_suffix (items : List AnnotatedMoveValue) (batch : Batch) :
    ∃ pre, (parse_table_info_items items batch).2 = pre ++ batch := by
  cases items with
  | nil => exact ⟨[], by simp [parse_table_info_items]⟩
  | cons item rest =>
      obtain ⟨p1, h1⟩ := parse_table_info_suffix item batch
      cases hv : parse_table_info item batch with
      | mk e b =>
          cases e with
          | some err =>
              exact ⟨p1, by simp [parse_table_info_items, hv]; rw [hv] at h1; exact h1⟩
          | none =>
              obtain ⟨p2, h2⟩ := parse_table_info_items_suffix rest b
              refine ⟨p2 ++ p1, ?_⟩
              simp [parse_table_info_items, hv, h2]
              rw [hv] at h1
              simp at h1
              simp [h1, List.append_assoc]

/-- The field loop of the walker only prepends staged entries. -/
theorem parse_table_info_fields_suffix (fields : List (String × AnnotatedMoveValue))
    (batch : Batch) :
    ∃ pre, (parse_table_info_fields fields batch).2 = pre ++ batch := by
  cases fields with
  | nil => exact ⟨[], by simp [parse_table_info_fields]⟩
  | cons fv rest =>
      obtain ⟨p1, h1⟩ := parse_table_info_suffix fv.2 batch
      cases hv : parse_table_info fv.2 batch with
      | mk e b =>
          cases e with
          | some err =>
              refine ⟨p1, ?_⟩
              rcases fv with ⟨fn, fvv⟩
              simp [parse_table_info_fields, hv]
              rw [hv] at h1
              exact h1
          | none =>
              obtain ⟨p2, h2⟩ := parse_table_info_fields_suffix rest b
              refine ⟨p2 ++ p1, ?_⟩
              rcases fv with ⟨fn, fvv⟩
              simp [parse_table_info_fields, hv]
              rw [hv] at h1
              simp at h1
              subst h1
              simpa [List.append_assoc] using h2

end

/-- The write classifier only prepends staged entries to the batch. -/
theorem parse_table_info_from_write_op_suffix (ext : Externals)
    (gti : Nat → Option TableInfo) (state_key : StateKey) (write_op : WriteOp)
    (batch : Batch) :
    ∃ pre, (parse_table_info_from_write_op ext gti state_key write_op batch).2
      = pre ++ batch := by
  cases write_op with
  | Deletion => exact ⟨[], by simp [parse_table_info_from_write_op]⟩
  | Delta a b => exact ⟨[], by simp [parse_table_info_from_write_op]⟩
  | Value bytes =>
      cases state_key with
      | Raw r => exact ⟨[], by simp [parse_table_info_from_write_op]⟩
      | AccessPath addr pb =>
          cases hp : ext.tryIntoPath pb with
          | none => exact ⟨[], by simp [parse_table_info_from_write_op, hp]⟩
          | some path =>
              cases path with
              | Code ma mn => exact ⟨[], by simp [parse_table_info_from_write_op, hp]⟩
              | Resource tag =>
                  cases hv : ext.viewValue (.Struct tag) bytes with
                  | none =>
                      exact ⟨[], by simp [parse_table_info_from_write_op, hp, hv]⟩
                  | some v =>
                      obtain ⟨pre, hpre⟩ := parse_table_info_suffix v batch
                      exact ⟨pre, by simp [parse_table_info_from_write_op, hp, hv, hpre]⟩
      | TableItem handle key =>
          cases hg : gti handle with
          | none => exact ⟨[], by simp [parse_table_info_from_write_op, hg]⟩
          | some info =>
              cases hv : ext.viewValue info.value_type bytes with
              | none => exact ⟨[], by simp [parse_table_info_from_write_op, hg, hv]⟩
              | some v =>
                  obtain ⟨pre, hpre⟩ := parse_table_info_suffix v batch
                  exact ⟨pre, by simp [parse_table_info_from_write_op, hg, hv, hpre]⟩

/- ------------------------------------------------------------------ -/
/- Claim theorems                                                      -/
/- ------------------------------------------------------------------ -/

/-- Claim C7: `is_table` returns true iff the struct tag has defining
address `AccountAddress::ONE` (1), module name "table" and type name
"Table"; it is a pure Lean function, so it has no side effects and no
failure modes. -/
theorem c7_is_table_iff (s : StructTag) :
    is_table s = true ↔ (s.address = 1 ∧ s.moduleName = "table" ∧ s.name = "Table") := by
  simp [is_table, Bool.and_eq_true, beq_iff_eq, and_assoc]

theorem c7_is_table_iff_witness :
    is_table (.mk 1 "table" "Table" []) = true :=
  (c7_is_table_iff (.mk 1 "table" "Table" [])).mpr ⟨rfl, rfl, rfl⟩

/-- Claim C6: for a well-formed marker struct — table tag, type parameters
`[kt, vt]`, first field `("handle", U128 h)` — the walker succeeds and the
resulting batch is exactly the old batch with the single staged entry
`h -> {key_type kt, value_type vt}` prepended, whatever the remaining
fields are (no recursion into the marker fields, no other entry). -/
theorem c6_table_discovery (tag : StructTag) (kt vt : TypeTag) (h : Nat)
    (rest : List (String × AnnotatedMoveValue)) (batch : Batch)
    (ht : is_table tag = true) (hp : tag.type_params = [kt, vt]) :
    parse_table_info (.Struct tag (("handle", .U128 h) :: rest)) batch
      = (none, batch.put h ⟨kt, vt⟩) := by
  simp [parse_table_info, ht, hp]

theorem c6_table_discovery_witness :
    parse_table_info
      (.Struct (.mk 1 "table" "Table" [.Address, .U64])
        [("handle", .U128 42),
         ("nested", .Struct (.mk 1 "table" "Table" [.U8, .U8]) [("handle", .U128 7)])]) []
      = (none, [(42, ⟨.Address, .U64⟩)]) :=
  c6_table_discovery _ _ _ _ _ _ rfl rfl

/-- Claim C3 (amended): a marker struct whose tag does not carry exactly
two type parameters makes the walker abort via the failed
`assert_eq!(struct_tag.type_params.len(), 2)` — a Rust panic
(`panicAssert`), not a returned MalformedMarker error — with the batch
unchanged; the whole index call still ends with nothing staged durably. -/
theorem c3_marker_arity_panics (tag : StructTag)
    (fields : List (String × AnnotatedMoveValue)) (batch : Batch)
    (ht : is_table tag = true) (hp : tag.type_params.length ≠ 2) :
    parse_table_info (.Struct tag fields) batch = (some .panicAssert, batch) := by
  rcases tag with ⟨a, m, n, ps⟩
  match ps, hp with
  | [], _ => simp [parse_table_info, ht, StructTag.type_params]
  | [x], _ => simp [parse_table_info, ht, StructTag.type_params]
  | x :: y :: z :: t, _ => simp [parse_table_info, ht, StructTag.type_params]
  | [x, y], hp => exact absurd rfl hp

/-- Claim C3 counterexample: on a marker struct with one type parameter
the walker yields the assertion panic, which is not the MalformedMarker
(`bail!`) error the claim announces. -/
theorem c3_marker_arity_counterexample :
    (parse_table_info (.Struct (.mk 1 "table" "Table" [.U64]) [("handle", .U128 42)]) []).1
        = some .panicAssert
      ∧ some IndexErr.panicAssert ≠ some IndexErr.malformedMarker :=
  ⟨rfl, by decide⟩

theorem c3_marker_arity_panics_witness :
    parse_table_info (.Struct (.mk 1 "table" "Table" [.U64]) [("handle", .U128 42)]) []
      = (some .panicAssert, []) :=
  c3_marker_arity_panics _ _ _ rfl (by decide)

/-- Claim C4 (amended): for a marker struct with exactly two type
parameters, a first field whose value is not a U128 yields the
MalformedMarker (`bail!`) error; a first field holding a U128 but not
named "handle" aborts via the failed `assert_eq!` — a Rust panic, not a
MalformedMarker error; an empty field list panics on the out-of-bounds
`value[0]` index.  In every case nothing is staged. -/
theorem c4_handle_field_check (tag : StructTag) (kt vt : TypeTag) (batch : Batch)
    (ht : is_table tag = true) (hp : tag.type_params = [kt, vt]) :
    (∀ name v rest, (∀ n, v ≠ AnnotatedMoveValue.U128 n) →
        parse_table_info (.Struct tag ((name, v) :: rest)) batch
          = (some .malformedMarker, batch))
  ∧ (∀ name h rest, name ≠ "handle" →
        parse_table_info (.Struct tag ((name, .U128 h) :: rest)) batch
          = (some .panicAssert, batch))
  ∧ parse_table_info (.Struct tag []) batch = (some .panicIndex, batch) := by
  refine ⟨?_, ?_, ?_⟩
  · intro name v rest hv
    cases v <;> simp [parse_table_info, ht, hp]
    · exact absurd rfl (hv _)
  · intro name h rest hn
    simp [parse_table_info, ht, hp, hn]
  · simp [parse_table_info, ht, hp]

/-- Claim C4 counterexample: a marker struct whose first field holds a
U128 but is named "nothandle" makes the walker panic on the name
assertion instead of returning the MalformedMarker error the claim
announces. -/
theorem c4_handle_field_counterexample :
    (parse_table_info
        (.Struct (.mk 1 "table" "Table" [.Address, .U64]) [("nothandle", .U128 5)]) []).1
        = some .panicAssert
      ∧ some IndexErr.panicAssert ≠ some IndexErr.malformedMarker :=
  ⟨rfl, by decide⟩

theorem c4_handle_field_check_witness :
    parse_table_info
        (.Struct (.mk 1 "table" "Table" [.Address, .U64]) [("h", .Bool true)]) []
      = (some .malformedMarker, []) :=
  (c4_handle_field_check (.mk 1 "table" "Table" [.Address, .U64]) .Address .U64 [] rfl rfl).1
    "h" (.Bool true) [] (by intro n hn; cases hn)

/-- Claim C10: the value walker and the write classifier only leave the
staged batch unchanged or prepend (handle, TableInfo) entries; a handle
already staged is still found afterwards, so the set of staged handles
only grows during one index call. -/
theorem c10_batch_monotone :
    (∀ v batch h, (Batch.find batch h).isSome = true →
        (Batch.find (parse_table_info v batch).2 h).isSome = true)
  ∧ (∀ ext gti state_key write_op batch h, (Batch.find batch h).isSome = true →
        (Batch.find
          (parse_table_info_from_write_op ext gti state_key write_op batch).2 h).isSome
          = true) := by
  constructor
  · intro v batch h hb
    obtain ⟨pre, hpre⟩ := parse_table_info_suffix v batch
    rw [hpre]
    exact Batch.find_append_isSome pre batch h hb
  · intro ext gti state_key write_op batch h hb
    obtain ⟨pre, hpre⟩ := parse_table_info_from_write_op_suffix ext gti state_key write_op batch
    rw [hpre]
    exact Batch.find_append_isSome pre batch h hb

theorem c10_batch_monotone_witness :
    (Batch.find (parse_table_info (.U64 0) [(9, ⟨.U8, .U8⟩)]).2 9).isSome = true :=
  c10_batch_monotone.1 (.U64 0) [(9, ⟨.U8, .U8⟩)] 9 rfl

/-- Claim C5: for a Value write to a table-item key with handle `handle`,
the classifier consults only the durable index read `gti` — the batch is
universally quantified, so even a batch already staging `handle` does not
change the outcome.  A missing durable entry is the fatal
`unresolvedTable` error; a present entry has its recorded value type used
for decoding, whose result is forwarded to the value walker (decode
failure being `decodeError`). -/
theorem c5_unresolved_table (ext : Externals) (gti : Nat → Option TableInfo)
    (handle : Nat) (key bytes : List Nat) (batch : Batch) :
    (gti handle = none →
      parse_table_info_from_write_op ext gti (.TableItem handle key) (.Value bytes) batch
        = (some .unresolvedTable, batch))
  ∧ (∀ info, gti handle = some info →
      ext.viewValue info.value_type bytes = none →
        parse_table_info_from_write_op ext gti (.TableItem handle key) (.Value bytes) batch
          = (some .decodeError, batch))
  ∧ (∀ info v, gti handle = some info →
      ext.viewValue info.value_type bytes = some v →
        parse_table_info_from_write_op ext gti (.TableItem handle key) (.Value bytes) batch
          = parse_table_info v batch) := by
  refine ⟨?_, ?_, ?_⟩
  · intro hg
    simp [parse_table_info_from_write_op, hg]
  · intro info hg hv
    simp [parse_table_info_from_write_op, hg, hv]
  · intro info v hg hv
    simp [parse_table_info_from_write_op, hg, hv]

theorem c5_unresolved_table_witness :
    parse_table_info_from_write_op
        ⟨fun _ => none, fun _ _ => none⟩ (fun _ => none)
        (.TableItem 5 []) (.Value []) [(5, ⟨.U8, .U64⟩)]
      = (some .unresolvedTable, [(5, ⟨.U8, .U64⟩)]) :=
  (c5_unresolved_table ⟨fun _ => none, fun _ _ => none⟩ (fun _ => none)
      5 [] [] [(5, ⟨.U8, .U64⟩)]).1 rfl

/-- Claim C8: Deletion and Delta writes, Value writes to a path that
parses to executable code, and Value writes to raw keys all succeed with
the batch unchanged; the equations hold for every choice of the external
decoder, so no decoding is performed. -/
theorem c8_defined_noops (ext : Externals) (gti : Nat → Option TableInfo) (batch : Batch) :
    (∀ state_key, parse_table_info_from_write_op ext gti state_key .Deletion batch
        = (none, batch))
  ∧ (∀ state_key a b, parse_table_info_from_write_op ext gti state_key (.Delta a b) batch
        = (none, batch))
  ∧ (∀ addr pathBytes bytes ma mn, ext.tryIntoPath pathBytes = some (.Code ma mn) →
      parse_table_info_from_write_op ext gti (.AccessPath addr pathBytes) (.Value bytes) batch
        = (none, batch))
  ∧ (∀ raw bytes, parse_table_info_from_write_op ext gti (.Raw raw) (.Value bytes) batch
        = (none, batch)) := by
  refine ⟨?_, ?_, ?_, ?_⟩
  · intro state_key; simp [parse_table_info_from_write_op]
  · intro state_key a b; simp [parse_table_info_from_write_op]
  · intro addr pathBytes bytes ma mn hp
    simp [parse_table_info_from_write_op, hp]
  · intro raw bytes; simp [parse_table_info_from_write_op]

theorem c8_defined_noops_witness :
    parse_table_info_from_write_op
        ⟨fun _ => some (.Code 7 "m"), fun _ _ => none⟩ (fun _ => none)
        (.AccessPath 3 [1, 2]) (.Value [9]) []
      = (none, []) :=
  (c8_defined_noops ⟨fun _ => some (.Code 7 "m"), fun _ _ => none⟩
      (fun _ => none) []).2.2.1 3 [1, 2] [9] 7 "m" rfl

/-- Claim C9: a Value write to a path-addressed key whose access-path
bytes fail to convert into a `Path` makes the classifier return an error
(`pathError`), which propagates so that the whole index call returns it
with the durable store untouched; this failure mode is distinct from the
four error kinds the spec lists. -/
theorem c9_path_parse_error (ext : Externals) (gti : Nat → Option TableInfo)
    (addr : Nat) (pathBytes bytes : List Nat) (batch : Batch) (db : DB)
    (hp : ext.tryIntoPath pathBytes = none) :
    parse_table_info_from_write_op ext gti (.AccessPath addr pathBytes) (.Value bytes) batch
      = (some .pathError, batch)
  ∧ index_transactions (fun _ => ext) db [⟨[(.AccessPath addr pathBytes, .Value bytes)]⟩]
      = (some .pathError, db)
  ∧ (IndexErr.pathError ≠ .decodeError ∧ IndexErr.pathError ≠ .unresolvedTable
      ∧ IndexErr.pathError ≠ .malformedMarker ∧ IndexErr.pathError ≠ .storageError) := by
  refine ⟨?_, ?_, by decide, by decide, by decide, by decide⟩
  · simp [parse_table_info_from_write_op, hp]
  · simp [index_transactions, index_txns_loop, index_write_set,
      parse_table_info_from_write_op, hp]

theorem c9_path_parse_error_witness :
    parse_table_info_from_write_op ⟨fun _ => none, fun _ _ => none⟩ (fun _ => none)
        (.AccessPath 2 [0]) (.Value [1]) []
      = (some .pathError, [])
  ∧ index_transactions (fun _ => ⟨fun _ => none, fun _ _ => none⟩) ⟨some 3, []⟩
        [⟨[(.AccessPath 2 [0], .Value [1])]⟩]
      = (some .pathError, ⟨some 3, []⟩) :=
  ⟨(c9_path_parse_error ⟨fun _ => none, fun _ _ => none⟩ (fun _ => none)
      2 [0] [1] [] ⟨some 3, []⟩ rfl).1,
   (c9_path_parse_error ⟨fun _ => none, fun _ _ => none⟩ (fun _ => none)
      2 [0] [1] [] ⟨some 3, []⟩ rfl).2.1⟩

/-- Claim C1: whenever `index_transactions` returns an error — every
classification, decoding or structural failure of any write of any
transaction propagates to the return value — the DB it returns is exactly
the DB it was given: the durable index store is mutated only on full
success, by the single final `write_schemas`. -/
theorem c1_all_or_nothing (mkExt : Option Nat → Externals) (db : DB)
    (txns : List TransactionToCommit) (e : IndexErr)
    (he : (index_transactions mkExt db txns).1 = some e) :
    (index_transactions mkExt db txns).2 = db := by
  cases txns with
  | nil => simp [index_transactions] at he
  | cons t rest =>
      cases hres : index_txns_loop (mkExt (state_view_version db.latestVersion))
          (db_get_table_info db) (t :: rest) [] with
      | mk eo b =>
          cases eo with
          | some err => simp [index_transactions, hres]
          | none => simp [index_transactions, hres] at he

theorem c1_all_or_nothing_witness :
    (index_transactions (fun _ => ⟨fun _ => none, fun _ _ => none⟩) ⟨none, []⟩
        [⟨[(.AccessPath 0 [], .Value [])]⟩]).2 = ⟨none, []⟩ :=
  c1_all_or_nothing (fun _ => ⟨fun _ => none, fun _ _ => none⟩) ⟨none, []⟩
    [⟨[(.AccessPath 0 [], .Value [])]⟩] .pathError rfl

/-- Claim C2 (amended): the externals used for decoding are those built
for `state_view_version latest`, which is `some (v + 1)` — one past the
latest committed version — when the ledger store reports `some v`, and
`none` (no version bound at all, not version 0) when it reports no prior
transaction: the whole call result depends on the external builder only
through its value at that version. -/
theorem c2_version_pinning (mkE mkF : Option Nat → Externals) (db : DB)
    (txns : List TransactionToCommit)
    (hmk : mkE (state_view_version db.latestVersion)
      = mkF (state_view_version db.latestVersion)) :
    index_transactions mkE db txns = index_transactions mkF db txns
  ∧ (∀ v, state_view_version (some v) = some (v + 1))
  ∧ state_view_version none = none := by
  refine ⟨?_, fun v => rfl, rfl⟩
  cases txns with
  | nil => rfl
  | cons t rest => simp [index_transactions, hmk]

/-- Claim C2 counterexample: when the ledger store reports no prior
version, the state view is pinned to no version at all — `none`, which is
not `some 0`, so the context is not bound to version 0 as claimed. -/
theorem c2_version_pinning_counterexample :
    state_view_version none = none ∧ (none : Option Nat) ≠ some 0 :=
  ⟨rfl, by decide⟩

theorem c2_version_pinning_witness :
    index_transactions (fun _ => ⟨fun _ => none, fun _ _ => none⟩) ⟨some 3, []⟩
        [⟨[(.Raw [], .Value [])]⟩]
      = index_transactions
          (fun ov => match ov with
            | some 4 => ⟨fun _ => none, fun _ _ => none⟩
            | _ => ⟨fun _ => none, fun _ _ => some (.U8 0)⟩)
          ⟨some 3, []⟩ [⟨[(.Raw [], .Value [])]⟩]
  ∧ state_view_version (some 3) = some 4 :=
  ⟨(c2_version_pinning (fun _ => ⟨fun _ => none, fun _ _ => none⟩)
      (fun ov => match ov with
        | some 4 => ⟨fun _ => none, fun _ _ => none⟩
        | _ => ⟨fun _ => none, fun _ _ => some (.U8 0)⟩)
      ⟨some 3, []⟩ [⟨[(.Raw [], .Value [])]⟩] rfl).1,
   (c2_version_pinning (fun _ => ⟨fun _ => none, fun _ _ => none⟩)
      (fun ov => match ov with
        | some 4 => ⟨fun _ => none, fun _ _ => none⟩
        | _ => ⟨fun _ => none, fun _ _ => some (.U8 0)⟩)
      ⟨some 3, []⟩ [⟨[(.Raw [], .Value [])]⟩] rfl).2.1 3⟩

end Indexer
